import Mathlib

/-!
Verification of the frame-reduction and GIF-encoding pipeline of the
Square-Gif-Recorder repository.

The development shallowly embeds the code of `src/utils/gif_saver.py` and
`src/managers/recording_manager.py`:

* `GifSettings` and its validation, `effective_num_colors` and
  `frame_duration_ms` (including an exact model of the IEEE-754 binary64
  arithmetic that Python floats perform there);
* `FrameSimilarityDetector` as a state machine, with the image-processing
  primitives (MD5 hashes of downsampled frames, PIL/numpy similarity
  metrics) abstracted as parameters, since only their input/output behavior
  matters to the control flow under verification;
* the `ProgressManager` / `GifSaver._process_frames` / `GifSaver._perform_save`
  / `GifSaver._save_gif_file` pipeline, with frame conversion abstracted and
  dialog-cancellation polls modelled by an external boolean schedule;
* the `RecordingManager` mode machine.
-/

set_option maxRecDepth 100000

/-
Exact model of IEEE-754 binary64 arithmetic (round to nearest, ties to
even) for the nonnegative values arising in `GifSettings`.  A finite double
is represented by a mantissa/exponent pair denoting `mant * 2 ^ expo`; all
values arising in this development stay far from overflow and from the
subnormal range, where binary64 arithmetic is exactly "round the exact
rational result to 53 significant bits".
-/

structure Binary64 where
  mant : ℕ
  expo : ℤ
  deriving DecidableEq

namespace Binary64

/-- Rational value denoted by a `Binary64`. -/
def toRat (d : Binary64) : ℚ :=
  if 0 ≤ d.expo then (d.mant : ℚ) * 2 ^ d.expo.toNat
  else (d.mant : ℚ) / 2 ^ (-d.expo).toNat

/-- Scale the fraction `p / q` by powers of two until its integer part lies
in `[2^52, 2^53)`, tracking the exponent, then round it to the nearest
integer with ties to even.  This is exactly binary64 rounding of the
positive rational `p / q`.  The fuel bounds the scaling steps; 300 is far
more than any value in this development needs. -/
def roundLoop : ℕ → ℕ → ℕ → ℤ → Binary64
  | 0, p, q, e => ⟨p / q, e⟩
  | fuel + 1, p, q, e =>
    if p / q < 2 ^ 52 then roundLoop fuel (2 * p) q (e - 1)
    else if 2 ^ 53 ≤ p / q then roundLoop fuel p (2 * q) (e + 1)
    else
      let d := p / q
      let r := p % q
      if 2 * r < q then ⟨d, e⟩
      else if q < 2 * r then ⟨d + 1, e⟩
      else if d % 2 = 0 then ⟨d, e⟩ else ⟨d + 1, e⟩

/-- Binary64 rounding of the nonnegative rational `p / q`. -/
def ofRat (p q : ℕ) : Binary64 :=
  if p = 0 ∨ q = 0 then ⟨0, 0⟩ else roundLoop 300 p q 0

/-- Binary64 subtraction `1 - d`.  In the pipeline `d` is always
`fl(lossy_level / 10.0) ≤ 1`, so `d.expo ≤ 0` and the difference is the
exact nonnegative rational `(2^(-expo) - mant) / 2^(-expo)`, rounded. -/
def oneSub (d : Binary64) : Binary64 :=
  if d.expo ≤ 0 then
    let s := 2 ^ (-d.expo).toNat
    ofRat (s - d.mant) s
  else ofRat 0 1

/-- Binary64 product of a small natural number (exactly representable in
binary64) and a double: the exact product `n * mant * 2 ^ expo`, rounded.
Rounding is invariant under scaling by powers of two, so it is performed on
the integer `n * mant` alone. -/
def mulNat (n : ℕ) (d : Binary64) : Binary64 :=
  let r := ofRat (n * d.mant) 1
  ⟨r.mant, r.expo + d.expo⟩

/-- Truncation of a nonnegative double toward zero, as Python `int()`. -/
def trunc (d : Binary64) : ℕ :=
  if 0 ≤ d.expo then d.mant * 2 ^ d.expo.toNat else d.mant / 2 ^ (-d.expo).toNat

end Binary64

/-
`GifSettings` (src/utils/gif_saver.py).  Python `int` fields are modelled
by `ℤ` and `float` fields by their exact rational values; `float`
comparisons agree with the comparisons of the denoted rationals, so the
validation logic is unaffected by rounding.
-/

structure GifSettings where
  fps : ℤ
  scale_factor : ℚ
  num_colors : ℤ
  use_dithering : Bool
  skip_value : ℤ
  lossy_level : ℤ
  disposal_method : ℤ
  similarity_threshold : ℚ
  enable_similarity_skip : Bool

namespace GifSettings

/-- `GifSettings._validate`: the checks in source order, with the exact
error messages.  `__post_init__` runs this on every construction, so a
`GifSettings` object with out-of-range fields can never be observed. -/
def validate (s : GifSettings) : Except String Unit :=
  if s.fps ≤ 0 then .error "FPS must be positive"
  else if ¬(0 < s.scale_factor ∧ s.scale_factor ≤ 1) then
    .error "Scale factor must be between 0 and 1"
  else if s.num_colors < 2 ∨ s.num_colors > 256 then
    .error "Number of colors must be between 2 and 256"
  else if s.skip_value < 1 then .error "Skip value must be at least 1"
  else if ¬(0 ≤ s.lossy_level ∧ s.lossy_level ≤ 10) then
    .error "Lossy level must be between 0 and 10"
  else if ¬(0 ≤ s.disposal_method ∧ s.disposal_method ≤ 3) then
    .error "Disposal method must be between 0 and 3"
  else if ¬(0 ≤ s.similarity_threshold ∧ s.similarity_threshold ≤ 1) then
    .error "Similarity threshold must be between 0 and 1"
  else .ok ()

/-- Dataclass construction: `__post_init__` validates eagerly; the settings
value is available only when every check passed. -/
def construct (s : GifSettings) : Except String GifSettings :=
  match s.validate with
  | .error e => .error e
  | .ok _ => .ok s

end GifSettings

/-- Core of `GifSettings.effective_num_colors` on the natural-number domain
enforced by `_validate`: `num_colors` when `lossy_level == 0`, else
`max(2, int(num_colors * (1 - lossy_level / 10.0)))` with the arithmetic
carried out in binary64. -/
def effective_num_colors (num_colors lossy_level : ℕ) : ℕ :=
  if lossy_level = 0 then num_colors
  else max 2 (Binary64.trunc
    (Binary64.mulNat num_colors (Binary64.oneSub (Binary64.ofRat lossy_level 10))))

/-- `GifSettings.effective_num_colors` as a property of the settings object.
`_validate` guarantees both fields are nonnegative, so `Int.toNat` is the
identity on every constructible settings value. -/
def GifSettings.effectiveNumColors (s : GifSettings) : ℤ :=
  (effective_num_colors s.num_colors.toNat s.lossy_level.toNat : ℤ)

/-- Core of `GifSettings.frame_duration_ms`: `int(1000 / fps) * skip_value`,
with the division carried out in binary64. -/
def frame_duration_ms (fps skip_value : ℕ) : ℕ :=
  Binary64.trunc (Binary64.ofRat 1000 fps) * skip_value

/-- `GifSettings.frame_duration_ms` as a property of the settings object. -/
def GifSettings.frameDurationMs (s : GifSettings) : ℤ :=
  (frame_duration_ms s.fps.toNat s.skip_value.toNat : ℤ)

/-
`FrameSimilarityDetector` (src/utils/gif_saver.py).  The image-level
primitives are abstracted: `image_hash` stands for
`_calculate_image_hash` (MD5 of an 8x8 nearest-neighbour downsample),
`structural_hash` for `_calculate_structural_hash` (MD5 of the binarized
gradient map, with its internal exception fallback), and the four fields of
`SimilarityScores` for the four metrics computed by
`_calculate_multiple_similarities` (each of which already maps its own
internal exceptions to 0.0, so they are total functions).  Only their
input/output behaviour reaches the detector's control flow, which is
modelled exactly.
-/

structure SimilarityScores where
  pixel : ℚ
  histogram : ℚ
  structural : ℚ
  local_changes : ℚ

structure SimilarityOps (Img : Type) where
  image_hash : Img → ℕ
  structural_hash : Img → ℕ
  scores : Img → Img → SimilarityScores

/-- Mutable state of a `FrameSimilarityDetector`.  `last_histogram` is
assigned `None` in `__init__` and `reset` and never written elsewhere. -/
structure DetectorState (Img : Type) where
  threshold : ℚ
  last_frame_hash : Option ℕ
  last_processed_image : Option Img
  last_histogram : Option Unit
  last_structural_hash : Option ℕ

/-- `FrameSimilarityDetector.__init__`. -/
def DetectorState.init (Img : Type) (threshold : ℚ) : DetectorState Img :=
  ⟨threshold, none, none, none, none⟩

/-- `FrameSimilarityDetector._combine_similarities`: weighted average of the
four metrics.  The score dictionary always carries exactly the four keys
`pixel`, `histogram`, `structural`, `local_changes` (weights 0.2, 0.2, 0.3,
0.3), so the accumulated total weight is 1.0. -/
def combine_similarities (sc : SimilarityScores) : ℚ :=
  (2/10 * sc.pixel + 2/10 * sc.histogram + 3/10 * sc.structural
    + 3/10 * sc.local_changes) / (2/10 + 2/10 + 3/10 + 3/10)

/-- `FrameSimilarityDetector._update_reference`: store the candidate and
recompute both hashes from it. -/
def update_reference {Img : Type} (ops : SimilarityOps Img)
    (st : DetectorState Img) (image : Img) : DetectorState Img :=
  { st with
    last_processed_image := some image
    last_frame_hash := some (ops.image_hash image)
    last_structural_hash := some (ops.structural_hash image) }

/-- `FrameSimilarityDetector.is_similar_to_previous`, returning the result
together with the updated detector state. -/
def is_similar_to_previous {Img : Type} (ops : SimilarityOps Img)
    (st : DetectorState Img) (current_image : Img) : Bool × DetectorState Img :=
  match st.last_processed_image with
  | none => (false, update_reference ops st current_image)
  | some last_image =>
    let current_hash := ops.image_hash current_image
    if some current_hash = st.last_frame_hash then (true, st)
    else
      let current_structural := ops.structural_hash current_image
      if some current_structural ≠ st.last_structural_hash then
        (false, update_reference ops st current_image)
      else
        let combined := combine_similarities (ops.scores last_image current_image)
        if combined < st.threshold then (false, update_reference ops st current_image)
        else (true, st)

/-
`ProgressManager` (src/utils/gif_saver.py).  The Qt progress dialog is
modelled by an external cancellation schedule: the k-th call to
`dialog.wasCanceled()` during the save operation returns
`cancel_schedule k`.  The dialog always exists between
`progress_context`'s creation and cleanup, i.e. throughout
`_perform_save`.  `callback_calls` records every invocation of the external
`progress_callback` with its argument (callback exceptions are caught, so
an invocation always completes).
-/

structure ProgressManager where
  total_frames : ℕ
  cancel_schedule : ℕ → Bool
  polls : ℕ
  current_step : ℕ
  callback_calls : List ℕ

namespace ProgressManager

/-- Total steps: frame processing plus one saving step. -/
def total_steps (pm : ProgressManager) : ℕ := pm.total_frames + 1

/-- `ProgressManager.update_frame_progress`: poll cancellation; when not
cancelled, set the dialog value to `current_frame` and invoke the external
callback with `current_frame`.  Returns `true` exactly when cancelled. -/
def update_frame_progress (pm : ProgressManager) (current_frame : ℕ) :
    Bool × ProgressManager :=
  if pm.cancel_schedule pm.polls then (true, { pm with polls := pm.polls + 1 })
  else
    (false,
      { pm with
        polls := pm.polls + 1
        current_step := current_frame
        callback_calls := pm.callback_calls ++ [current_frame] })

/-- `ProgressManager.start_saving_phase`. -/
def start_saving_phase (pm : ProgressManager) : Bool × ProgressManager :=
  if pm.cancel_schedule pm.polls then (true, { pm with polls := pm.polls + 1 })
  else (false, { pm with polls := pm.polls + 1, current_step := pm.total_frames })

/-- `ProgressManager.finish_saving`. -/
def finish_saving (pm : ProgressManager) : ProgressManager :=
  { pm with current_step := pm.total_steps }

/-- `ProgressManager.is_cancelled`. -/
def is_cancelled (pm : ProgressManager) : Bool × ProgressManager :=
  (pm.cancel_schedule pm.polls, { pm with polls := pm.polls + 1 })

end ProgressManager

/-
`GifSaver` (src/utils/gif_saver.py).  Frame conversion is abstracted:
`convert_process settings frame` stands for
`ImageConverter.qimage_to_pil` followed by `ImageConverter.process_image`;
`none` models the exceptions those raise (caught in `_process_frames` and
re-raised as `RuntimeError("Failed to process frame ...")`).  The PIL
`Image.save` call is treated as an abstract write to the destination path;
its own I/O failures are outside the model.
-/

structure PipelineOps (Img PImg : Type) where
  convert_process : GifSettings → Img → Option PImg
  sim : SimilarityOps PImg

/-- Loop body of `GifSaver._process_frames` over the remaining frames.
`i` is the index of the next frame, `skipped` the similarity-skip counter
(it feeds only the status text), `detector` the optional
`FrameSimilarityDetector`, and `acc` the accumulated processed images.
Errors model the re-raised `RuntimeError`; `ok none` models the `None`
returned on cancellation. -/
def process_loop {Img PImg : Type} (ops : PipelineOps Img PImg)
    (settings : GifSettings) :
    List Img → ℕ → ℕ → Option (DetectorState PImg) → List PImg →
    ProgressManager →
    Except (String × ProgressManager) (Option (List PImg) × ProgressManager)
  | [], i, _skipped, _detector, acc, pm =>
    -- final `update_frame_progress(len(frames), final_status)`; its
    -- cancellation result is ignored by the source
    let r := pm.update_frame_progress i
    .ok (some acc, r.2)
  | frame :: rest, i, skipped, detector, acc, pm =>
    let r := pm.update_frame_progress i
    if r.1 then .ok (none, r.2)
    else
      match ops.convert_process settings frame with
      | none => .error ("Failed to process frame " ++ toString (i + 1), r.2)
      | some processed_image =>
        match detector with
        | some d =>
          let sr := is_similar_to_previous ops.sim d processed_image
          if sr.1 then
            process_loop ops settings rest (i + 1) (skipped + 1) (some sr.2) acc r.2
          else
            process_loop ops settings rest (i + 1) skipped (some sr.2)
              (acc ++ [processed_image]) r.2
        | none =>
          process_loop ops settings rest (i + 1) skipped none
            (acc ++ [processed_image]) r.2

/-- `GifSaver._process_frames`: fresh similarity detector (when enabled),
then the loop from index 0 with empty accumulator. -/
def process_frames {Img PImg : Type} (ops : PipelineOps Img PImg)
    (frames : List Img) (settings : GifSettings) (pm : ProgressManager) :
    Except (String × ProgressManager) (Option (List PImg) × ProgressManager) :=
  process_loop ops settings frames 0 0
    (if settings.enable_similarity_skip then
      some (DetectorState.init PImg settings.similarity_threshold)
    else none) [] pm

/-- `GifSaver._save_gif_file`: `ValueError("No images to save")` on an empty
list; otherwise one cancellation check, and the PIL write (abstracted) when
not cancelled.  Returns whether the file was written. -/
def save_gif_file {PImg : Type} (images : List PImg) (_settings : GifSettings)
    (pm : ProgressManager) : Except String (Bool × ProgressManager) :=
  if images.isEmpty then .error "No images to save"
  else
    let c := pm.is_cancelled
    if c.1 then .ok (false, c.2)
    else .ok (true, c.2)

/-- Outcome of `GifSaver._perform_save`: the returned value (`ok none` for
the silent `None` paths, `error` for a propagated exception), whether the
destination file was written, whether `_save_gif_file` was entered, and the
final progress state. -/
structure SaveResult where
  outcome : Except String (Option String)
  file_written : Bool
  encoder_invoked : Bool
  pm : ProgressManager

/-- `GifSaver._perform_save` for a chosen destination `filename`. -/
def perform_save {Img PImg : Type} (ops : PipelineOps Img PImg)
    (frames : List Img) (settings : GifSettings) (filename : String)
    (pm0 : ProgressManager) : SaveResult :=
  match process_frames ops frames settings pm0 with
  | .error e => ⟨.error e.1, false, false, e.2⟩
  | .ok (none, pm) => ⟨.ok none, false, false, pm⟩
  | .ok (some processed_images, pm) =>
    -- `if not processed_images or progress_manager.is_cancelled()`:
    -- the cancellation poll is short-circuited away on an empty list
    if processed_images.isEmpty then ⟨.ok none, false, false, pm⟩
    else
      let c := pm.is_cancelled
      if c.1 then ⟨.ok none, false, false, c.2⟩
      else
        let sp := c.2.start_saving_phase
        if sp.1 then ⟨.ok none, false, false, sp.2⟩
        else
          match save_gif_file processed_images settings sp.2 with
          | .error e => ⟨.error e, false, true, sp.2⟩
          | .ok (written, pm2) =>
            let c2 := pm2.is_cancelled
            if c2.1 then ⟨.ok none, written, true, c2.2⟩
            else ⟨.ok (some filename), written, true, c2.2.finish_saving⟩

/-- Module-level `save_gif_from_frames`: construct the settings (validation
errors surface here, before any frame is looked at), then
`GifSaver.save_gif_from_frames`, which rejects an empty frame list, asks
for a destination (`filename = none` models a cancelled file dialog) and
runs `_perform_save`.  The second component exposes the external progress
callback invocations actually performed. -/
def save_gif_from_frames {Img PImg : Type} (ops : PipelineOps Img PImg)
    (frames : List Img) (raw : GifSettings) (filename : Option String)
    (pm0 : ProgressManager) : Option String × List ℕ :=
  match raw.construct with
  | .error _ => (none, [])
  | .ok settings =>
    if frames.isEmpty then (none, [])
    else
      match filename with
      | none => (none, [])
      | some fn =>
        let r := perform_save ops frames settings fn pm0
        match r.outcome with
        | .error _ => (none, r.pm.callback_calls)
        | .ok res => (res, r.pm.callback_calls)

/-
`RecordingManager` (src/managers/recording_manager.py) together with the
frame buffer it drives on the main window.  The `RecordingTimer` is
abstracted to its existence (`some ()` while a capture task is alive); Qt
signal wiring and the timed single-frame race are outside the claims
treated here.
-/

inductive AppMode where
  | ready
  | recording
  | paused
  | editing
  deriving DecidableEq

structure RecorderState (Frame : Type) where
  mode : AppMode
  frame_by_frame_mode : Bool
  timer : Option Unit
  frames : List Frame

/-- `RecordingManager.start`: a non-positive capture rectangle is rejected
with a warning dialog before anything is touched; otherwise the frame
buffer is cleared and continuous recording begins.  Returns the `bool`
result and the warning message, if any. -/
def RecorderState.start {Frame : Type} (st : RecorderState Frame)
    (rect_width rect_height : ℤ) : Bool × Option String × RecorderState Frame :=
  if rect_width ≤ 0 ∨ rect_height ≤ 0 then
    (false, some "The recording area is too small.", st)
  else
    (true, none,
      { mode := AppMode.recording
        frame_by_frame_mode := false
        timer := some ()
        frames := [] })

/-- `RecordingManager.stop`: tear the timer down and move to `EDITING`
exactly when the frame buffer is non-empty, else back to `READY`. -/
def RecorderState.stop {Frame : Type} (st : RecorderState Frame) :
    RecorderState Frame :=
  { st with
    timer := none
    frame_by_frame_mode := false
    mode := if st.frames.isEmpty then AppMode.ready else AppMode.editing }

/-
Shared concrete instantiations used by witnesses and counterexamples.
-/

/-- Trivial similarity primitives on unit images: constant hashes and
constant metric scores. -/
def unitSimOps : SimilarityOps Unit :=
  ⟨fun _ => 0, fun _ => 0, fun _ _ => ⟨1, 1, 1, 1⟩⟩

/-- Trivial pipeline primitives on unit images: conversion always
succeeds. -/
def unitOps : PipelineOps Unit Unit :=
  ⟨fun _ _ => some (), unitSimOps⟩

/-- A progress manager at the start of a save over `n` frames whose dialog
is never cancelled. -/
def pm_start (n : ℕ) : ProgressManager :=
  ⟨n, fun _ => false, 0, 0, []⟩

/-- A valid settings value with integral rational fields (scale 1.0,
threshold 1.0), similarity skipping enabled. -/
def sampleSettings : GifSettings :=
  ⟨10, 1, 16, true, 1, 0, 0, 1, true⟩

/-
Theorems.
-/

/-- Claim C9: `RecordingManager.start` with a capture rectangle of
non-positive width or height is rejected with a user-facing validation
error and leaves the whole recorder state (mode and frame buffer) exactly
as it was; `RecordingManager.stop` moves to `EDITING` when the buffer is
non-empty and to `READY` when it is empty. -/
theorem c9_recording_session (Frame : Type) :
    (∀ (st : RecorderState Frame) (w h : ℤ), w ≤ 0 ∨ h ≤ 0 →
      st.start w h = (false, some "The recording area is too small.", st)) ∧
    (∀ st : RecorderState Frame, st.frames ≠ [] → st.stop.mode = AppMode.editing) ∧
    (∀ st : RecorderState Frame, st.frames = [] → st.stop.mode = AppMode.ready) := by
  refine ⟨fun st w h hwh => ?_, fun st h => ?_, fun st h => ?_⟩
  · simp only [RecorderState.start, if_pos hwh]
  · simp [RecorderState.stop, h]
  · simp [RecorderState.stop, h]

/-- Witness for C9 at concrete inputs: a zero-width start request from
`READY` is rejected unchanged, and stopping with one frame, resp. no
frame, lands in `EDITING`, resp. `READY`. -/
theorem c9_recording_session_witness :
    (RecorderState.start ⟨AppMode.ready, false, none, ([] : List Unit)⟩ 0 5
      = (false, some "The recording area is too small.",
          ⟨AppMode.ready, false, none, []⟩)) ∧
    (RecorderState.stop ⟨AppMode.paused, false, some (), [()]⟩).mode = AppMode.editing ∧
    (RecorderState.stop ⟨AppMode.recording, false, some (), ([] : List Unit)⟩).mode
      = AppMode.ready :=
  ⟨(c9_recording_session Unit).1 _ 0 5 (Or.inl le_rfl),
   (c9_recording_session Unit).2.1 _ (by simp),
   (c9_recording_session Unit).2.2 _ rfl⟩

/-- Claim C5: the first frame submitted to a freshly created
`FrameSimilarityDetector` is never reported similar and becomes the
reference; a second, bit-identical frame is then reported similar through
the fast-hash short-circuit. -/
theorem c5_first_frame_and_duplicate (Img : Type) (ops : SimilarityOps Img)
    (threshold : ℚ) (f : Img) :
    (is_similar_to_previous ops (DetectorState.init Img threshold) f).1 = false ∧
    (is_similar_to_previous ops (DetectorState.init Img threshold) f).2.last_processed_image
      = some f ∧
    (is_similar_to_previous ops
      (is_similar_to_previous ops (DetectorState.init Img threshold) f).2 f).1 = true := by
  refine ⟨rfl, rfl, ?_⟩
  simp [is_similar_to_previous, DetectorState.init, update_reference]

/-- Claim C6: once the detector reaches the weighted-score stage (reference
present, fast hashes different, structural hashes equal), a combined score
at or above the threshold reports "similar" and leaves every field of the
detector state untouched, while a score below the threshold reports "not
similar" and installs the candidate as the new reference with both hashes
recomputed from it. -/
theorem c6_weighted_score_stage (Img : Type) (ops : SimilarityOps Img)
    (st : DetectorState Img) (cur ref : Img)
    (href : st.last_processed_image = some ref)
    (hhash : some (ops.image_hash cur) ≠ st.last_frame_hash)
    (hstruct : some (ops.structural_hash cur) = st.last_structural_hash) :
    (st.threshold ≤ combine_similarities (ops.scores ref cur) →
      is_similar_to_previous ops st cur = (true, st)) ∧
    (combine_similarities (ops.scores ref cur) < st.threshold →
      is_similar_to_previous ops st cur
        = (false,
            { st with
              last_processed_image := some cur
              last_frame_hash := some (ops.image_hash cur)
              last_structural_hash := some (ops.structural_hash cur) })) := by
  constructor
  · intro hge
    simp [is_similar_to_previous, href, hhash, hstruct, not_lt.mpr hge]
  · intro hlt
    simp [is_similar_to_previous, href, hhash, hstruct, hlt, update_reference]

/-- Witness for C6: with constant metric scores the combined similarity is
1, which is at or above a threshold of 1/2, so a candidate that fast-hashes
differently from the stored hash but structural-hashes identically is
reported similar with the state unchanged. -/
theorem c6_weighted_score_stage_witness :
    ((⟨1/2, some 5, some 0, none, some 7⟩ : DetectorState ℕ).threshold
        ≤ combine_similarities ((⟨fun n => n, fun _ => 7, fun _ _ => ⟨1, 1, 1, 1⟩⟩ :
            SimilarityOps ℕ).scores 0 1)) ∧
    is_similar_to_previous (⟨fun n => n, fun _ => 7, fun _ _ => ⟨1, 1, 1, 1⟩⟩ :
        SimilarityOps ℕ) (⟨1/2, some 5, some 0, none, some 7⟩ : DetectorState ℕ) 1
      = (true, ⟨1/2, some 5, some 0, none, some 7⟩) :=
  ⟨by norm_num [combine_similarities],
   (c6_weighted_score_stage ℕ ⟨fun n => n, fun _ => 7, fun _ _ => ⟨1, 1, 1, 1⟩⟩
      ⟨1/2, some 5, some 0, none, some 7⟩ 1 0 rfl (by simp) rfl).1
    (by norm_num [combine_similarities])⟩

/-- Shared characterization of `GifSettings._validate`: construction
succeeds exactly when every field is in range. -/
theorem validate_ok_iff (s : GifSettings) :
    s.validate = .ok () ↔
      (0 < s.fps ∧ (0 < s.scale_factor ∧ s.scale_factor ≤ 1) ∧
        (2 ≤ s.num_colors ∧ s.num_colors ≤ 256) ∧ 1 ≤ s.skip_value ∧
        (0 ≤ s.lossy_level ∧ s.lossy_level ≤ 10) ∧
        (0 ≤ s.disposal_method ∧ s.disposal_method ≤ 3) ∧
        (0 ≤ s.similarity_threshold ∧ s.similarity_threshold ≤ 1)) := by
  unfold GifSettings.validate
  split_ifs with h1 h2 h3 h4 h5 h6 h7 <;>
    simp only [reduceCtorEq, false_iff, true_iff]
  · exact fun hc => absurd hc.1 (by omega)
  · exact fun hc => absurd hc.2.2.1 (by omega)
  · exact fun hc => absurd hc.2.2.2.1 (by omega)
  · exact ⟨by omega, h2, by omega, by omega, h5, h6, h7⟩
  · exact fun hc => h7 hc.2.2.2.2.2.2
  · exact fun hc => h6 hc.2.2.2.2.2.1
  · exact fun hc => h5 hc.2.2.2.2.1
  · exact fun hc => h2 hc.2.1

/-- Claim C8: settings construction validates eagerly — it succeeds exactly
when every field is within range — and an invalid settings value makes the
whole save entry point return `None` before any frame is examined (no
progress callback ever fires, nothing is written). -/
theorem c8_validation :
    (∀ s : GifSettings, s.validate = .ok () ↔
      (0 < s.fps ∧ (0 < s.scale_factor ∧ s.scale_factor ≤ 1) ∧
        (2 ≤ s.num_colors ∧ s.num_colors ≤ 256) ∧ 1 ≤ s.skip_value ∧
        (0 ≤ s.lossy_level ∧ s.lossy_level ≤ 10) ∧
        (0 ≤ s.disposal_method ∧ s.disposal_method ≤ 3) ∧
        (0 ≤ s.similarity_threshold ∧ s.similarity_threshold ≤ 1))) ∧
    (∀ (Img PImg : Type) (ops : PipelineOps Img PImg) (frames : List Img)
      (raw : GifSettings) (filename : Option String) (pm0 : ProgressManager),
      raw.validate ≠ .ok () →
      save_gif_from_frames ops frames raw filename pm0 = (none, [])) := by
  refine ⟨validate_ok_iff, fun Img PImg ops frames raw filename pm0 hbad => ?_⟩
  unfold save_gif_from_frames GifSettings.construct
  match hv : raw.validate with
  | .error e => rfl
  | .ok u => exact absurd (by rw [hv]) hbad

/-- Witness for C8: `scale_factor = 1.5` is rejected and the save entry
point does nothing. -/
theorem c8_validation_witness :
    save_gif_from_frames unitOps [()] ⟨10, 3/2, 16, true, 1, 0, 0, 1, true⟩
      (some "out.gif") (pm_start 1) = (none, []) :=
  c8_validation.2 Unit Unit unitOps [()] ⟨10, 3/2, 16, true, 1, 0, 0, 1, true⟩
    (some "out.gif") (pm_start 1)
    (by intro h; rw [validate_ok_iff] at h; exact absurd h.2.1.2 (by norm_num))

/-- Shared finite-domain fact: for every valid `num_colors` and nonzero
`lossy_level`, the binary64 truncation in `effective_num_colors` lands on
the exact rational floor `num_colors * (10 - lossy_level) / 10` or one
below it (float rounding can lose exactly one unit). -/
theorem eff_floor_bracket : ∀ nc < 255, ∀ l < 10,
    effective_num_colors (nc + 2) (l + 1) = max 2 ((nc + 2) * (10 - (l + 1)) / 10) ∨
    effective_num_colors (nc + 2) (l + 1) = max 2 ((nc + 2) * (10 - (l + 1)) / 10 - 1) := by
  decide

/-- Shared finite-domain fact: one step of `lossy_level` never increases the
effective palette size. -/
theorem eff_antitone_step : ∀ nc < 255, ∀ l < 10,
    effective_num_colors (nc + 2) (l + 1) ≤ effective_num_colors (nc + 2) l := by
  decide

/-- Shared finite-domain fact: for 1 ≤ fps ≤ 1000 the binary64 division and
truncation in `frame_duration_ms` agree with exact floor division. -/
theorem duration_floor_div : ∀ fps < 1000,
    Binary64.trunc (Binary64.ofRat 1000 (fps + 1)) = 1000 / (fps + 1) := by
  decide

/-- Counterexample to claim C2 as stated: for the valid settings value with
`num_colors = 15` and `lossy_level = 8`, the code computes
`int(15 * (1 - 0.8))` where the binary64 product is `2.9999999999999996`,
giving an effective palette size of 2, while
`max(2, round(15 * (1 - 8/10))) = max(2, round(3)) = 3`. -/
theorem c2_counterexample :
    GifSettings.validate ⟨10, 1, 15, true, 1, 8, 0, 1, true⟩ = .ok () ∧
    GifSettings.effectiveNumColors ⟨10, 1, 15, true, 1, 8, 0, 1, true⟩ = 2 ∧
    max 2 (round ((15 : ℚ) * (1 - (8 : ℚ) / 10))) = 3 := by
  refine ⟨by rw [validate_ok_iff]; norm_num, by decide, ?_⟩
  have h3 : (15 : ℚ) * (1 - (8 : ℚ) / 10) = ((3 : ℕ) : ℚ) := by norm_num
  rw [h3, round_natCast]
  norm_num

/-- Claim C2 (amended): for every valid settings value the effective palette
size equals `num_colors` when `lossy_level == 0`; otherwise it is
`max(2, int(num_colors * (1 - lossy_level/10)))` computed in binary64
floating point with truncation toward zero — which lands on the exact
rational floor `num_colors * (10 - lossy_level) / 10`, or one below it when
float rounding undershoots (never on the claimed round-to-nearest value in
general). -/
theorem c2_effective_colors_amended (s : GifSettings) (hv : s.validate = .ok ()) :
    (s.lossy_level = 0 → s.effectiveNumColors = s.num_colors) ∧
    (s.lossy_level ≠ 0 →
      s.effectiveNumColors = max 2 (s.num_colors * (10 - s.lossy_level) / 10) ∨
      s.effectiveNumColors = max 2 (s.num_colors * (10 - s.lossy_level) / 10 - 1)) := by
  obtain ⟨hfps, -, ⟨hnc2, hnc256⟩, hskip, ⟨hl0, hl10z⟩, -, -⟩ := (validate_ok_iff s).mp hv
  constructor
  · intro h0
    have h0' : s.lossy_level.toNat = 0 := by omega
    have hnc' : ((s.num_colors.toNat : ℕ) : ℤ) = s.num_colors := by omega
    simp [GifSettings.effectiveNumColors, effective_num_colors, h0', hnc']
  · intro hne
    set nc := s.num_colors.toNat with hncdef
    set l := s.lossy_level.toNat with hldef
    have hl1 : 1 ≤ l := by omega
    have hl10 : l ≤ 10 := by omega
    have hncv : s.num_colors = (nc : ℤ) := by omega
    have hlv : s.lossy_level = (l : ℤ) := by omega
    have key := eff_floor_bracket (nc - 2) (by omega) (l - 1) (by omega)
    rw [show nc - 2 + 2 = nc from by omega, show l - 1 + 1 = l from by omega] at key
    have hsub : ((10 : ℤ) - (l : ℤ)) = ((10 - l : ℕ) : ℤ) := by omega
    have hdiv : s.num_colors * (10 - s.lossy_level) / 10 = ((nc * (10 - l) / 10 : ℕ) : ℤ) := by
      rw [hncv, hlv, hsub, ← Nat.cast_mul]
      exact (Int.natCast_div _ _).symm
    unfold GifSettings.effectiveNumColors
    rcases key with hk | hk
    · left
      rw [hdiv, hk]
      push_cast [Nat.cast_max]
      norm_num
    · right
      rw [hdiv, hk]
      have hmax : ((max 2 (nc * (10 - l) / 10 - 1) : ℕ) : ℤ)
          = max 2 (((nc * (10 - l) / 10 : ℕ) : ℤ) - 1) := by omega
      rw [hmax]

/-- Witness for C2 (amended) at `num_colors = 15`, `lossy_level = 8`: the
effective size is `max 2 (15 * 2 / 10 - 1) = 2`, one below the exact
floor. -/
theorem c2_effective_colors_amended_witness :
    GifSettings.effectiveNumColors ⟨10, 1, 15, true, 1, 8, 0, 1, true⟩
        = max 2 ((15 : ℤ) * (10 - 8) / 10) ∨
    GifSettings.effectiveNumColors ⟨10, 1, 15, true, 1, 8, 0, 1, true⟩
        = max 2 ((15 : ℤ) * (10 - 8) / 10 - 1) :=
  (c2_effective_colors_amended ⟨10, 1, 15, true, 1, 8, 0, 1, true⟩
    (by rw [validate_ok_iff]; norm_num)).2 (by decide)

/-- Counterexample to claim C3 as stated: for the valid settings value with
`fps = 7` and stride 1, the code computes `int(1000 / 7) = 142` per frame,
while rounding to the nearest integer gives `round(1000/7) = 143`. -/
theorem c3_counterexample :
    GifSettings.validate ⟨7, 1, 16, true, 1, 0, 0, 1, true⟩ = .ok () ∧
    GifSettings.frameDurationMs ⟨7, 1, 16, true, 1, 0, 0, 1, true⟩ = 142 ∧
    round ((1000 : ℚ) / 7) * 1 = (143 : ℤ) := by
  refine ⟨by rw [validate_ok_iff]; norm_num, by decide, ?_⟩
  rw [mul_one, round_eq,
    show (1000 : ℚ) / 7 + 1 / 2 = ((2007 : ℤ) : ℚ) / ((14 : ℕ) : ℚ) by norm_num,
    Rat.floor_intCast_div_natCast]
  decide

/-- Claim C3 (amended): for every valid settings value with `fps ≤ 1000`
(the binary64 quotient agrees with exact floor division on this whole
range), the per-frame duration is `⌊1000 / fps⌋ * skip_value` milliseconds
— truncation of `1000 / fps`, not rounding to the nearest integer. -/
theorem c3_frame_duration_amended (s : GifSettings) (hv : s.validate = .ok ())
    (hub : s.fps ≤ 1000) :
    s.frameDurationMs = 1000 / s.fps * s.skip_value := by
  obtain ⟨hfps, -, -, hskip, -, -, -⟩ := (validate_ok_iff s).mp hv
  set f := s.fps.toNat with hfdef
  set k := s.skip_value.toNat with hkdef
  have hfv : s.fps = (f : ℤ) := by omega
  have hkv : s.skip_value = (k : ℤ) := by omega
  have key := duration_floor_div (f - 1) (by omega)
  rw [show f - 1 + 1 = f from by omega] at key
  have lhs : s.frameDurationMs = ((1000 / f * k : ℕ) : ℤ) := by
    unfold GifSettings.frameDurationMs frame_duration_ms
    rw [← hfdef, ← hkdef, key]
  rw [lhs, hfv, hkv,
    show (1000 : ℤ) / (f : ℤ) = ((1000 / f : ℕ) : ℤ) from (Int.natCast_div _ _).symm]
  push_cast
  ring

/-- Witness for C3 (amended) at `fps = 10`: 100 ms per frame at stride 1
(so a 20-frame input declares 2000 ms of playback), 200 ms at stride 2. -/
theorem c3_frame_duration_amended_witness :
    GifSettings.frameDurationMs ⟨10, 1, 16, true, 1, 0, 0, 1, true⟩ = 1000 / 10 * 1 ∧
    GifSettings.frameDurationMs ⟨10, 1, 16, true, 2, 0, 0, 1, true⟩ = 1000 / 10 * 2 ∧
    (20 : ℤ) * GifSettings.frameDurationMs ⟨10, 1, 16, true, 1, 0, 0, 1, true⟩ = 2000 :=
  ⟨c3_frame_duration_amended ⟨10, 1, 16, true, 1, 0, 0, 1, true⟩
      (by rw [validate_ok_iff]; norm_num) (by norm_num),
   c3_frame_duration_amended ⟨10, 1, 16, true, 2, 0, 0, 1, true⟩
      (by rw [validate_ok_iff]; norm_num) (by norm_num),
   by decide⟩

/-- Claim C7: for every fixed `num_colors` in 2..256 the effective palette
size is monotonically non-increasing in `lossy_level` on 0..10, and for
`num_colors = 256` the endpoints are 256 (level 0) and 2 (level 10). -/
theorem c7_palette_monotone :
    (∀ nc l₁ l₂ : ℕ, 2 ≤ nc → nc ≤ 256 → l₁ ≤ l₂ → l₂ ≤ 10 →
      effective_num_colors nc l₂ ≤ effective_num_colors nc l₁) ∧
    effective_num_colors 256 0 = 256 ∧ effective_num_colors 256 10 = 2 := by
  refine ⟨?_, by decide, by decide⟩
  intro nc l₁ l₂ h2 h256 h12 h10
  have key : ∀ j lo, lo + j ≤ 10 →
      effective_num_colors nc (lo + j) ≤ effective_num_colors nc lo := by
    intro j
    induction j with
    | zero => intro lo _; simp
    | succ n ih =>
      intro lo h
      have step := eff_antitone_step (nc - 2) (by omega) (lo + n) (by omega)
      rw [show nc - 2 + 2 = nc from by omega] at step
      exact le_trans step (ih lo (by omega))
  have res := key (l₂ - l₁) l₁ (by omega)
  rw [show l₁ + (l₂ - l₁) = l₂ from by omega] at res
  exact res

/-- Witness for C7: the palette size at `num_colors = 256` does not grow
from lossy level 5 to level 10. -/
theorem c7_palette_monotone_witness :
    effective_num_colors 256 10 ≤ effective_num_colors 256 5 :=
  c7_palette_monotone.1 256 5 10 (by norm_num) (by norm_num) (by norm_num) (by norm_num)

/-- Shared simp fact: `update_frame_progress` under a never-cancelling
schedule records exactly one external callback with the given frame
index. -/
theorem update_no_cancel (pm : ProgressManager) (i : ℕ)
    (hs : ∀ j, pm.cancel_schedule j = false) :
    pm.update_frame_progress i
      = (false,
          { pm with
            polls := pm.polls + 1
            current_step := i
            callback_calls := pm.callback_calls ++ [i] }) := by
  simp [ProgressManager.update_frame_progress, hs]

/-- Shared invariant of `_process_frames`: on a successful (uncancelled)
run the accumulated list is only ever extended, so the result extends the
starting accumulator. -/
theorem process_loop_acc_prefix {Img PImg : Type} (ops : PipelineOps Img PImg)
    (settings : GifSettings) :
    ∀ (fs : List Img) (i sk : ℕ) (det : Option (DetectorState PImg))
      (acc : List PImg) (pm : ProgressManager) (imgs : List PImg)
      (pm' : ProgressManager),
      process_loop ops settings fs i sk det acc pm = .ok (some imgs, pm') →
      ∃ t, imgs = acc ++ t := by
  intro fs
  induction fs with
  | nil =>
    intro i sk det acc pm imgs pm' h
    simp only [process_loop, Except.ok.injEq, Prod.mk.injEq, Option.some.injEq] at h
    exact ⟨[], by simp [← h.1]⟩
  | cons f rest ih =>
    intro i sk det acc pm imgs pm' h
    simp only [process_loop] at h
    split at h
    · simp only [Except.ok.injEq, Prod.mk.injEq, reduceCtorEq, false_and] at h
    · split at h
      · simp at h
      · split at h
        · rename_i d
          split at h
          · exact ih _ _ _ _ _ _ _ h
          · obtain ⟨t, ht⟩ := ih _ _ _ _ _ _ _ h
            exact ⟨_ :: t, by simpa using ht⟩
        · obtain ⟨t, ht⟩ := ih _ _ _ _ _ _ _ h
          exact ⟨_ :: t, by simpa using ht⟩

/-- Shared invariant of `_process_frames`: on a successful run with a
never-cancelling dialog, the external progress callback fires once per
frame examined with the frame's 0-based index, plus a final time with the
total frame count. -/
theorem process_loop_callbacks {Img PImg : Type} (ops : PipelineOps Img PImg)
    (settings : GifSettings) :
    ∀ (fs : List Img) (i sk : ℕ) (det : Option (DetectorState PImg))
      (acc : List PImg) (pm : ProgressManager),
      (∀ j, pm.cancel_schedule j = false) →
      ∀ (imgs : List PImg) (pm' : ProgressManager),
      process_loop ops settings fs i sk det acc pm = .ok (some imgs, pm') →
      pm'.callback_calls = pm.callback_calls ++ List.range' i (fs.length + 1) := by
  intro fs
  induction fs with
  | nil =>
    intro i sk det acc pm hs imgs pm' h
    simp only [process_loop] at h
    rw [update_no_cancel pm i hs] at h
    simp only [Except.ok.injEq, Prod.mk.injEq, Option.some.injEq] at h
    rw [← h.2]
    simp [List.range'_one]
  | cons f rest ih =>
    intro i sk det acc pm hs imgs pm' h
    simp only [process_loop] at h
    rw [update_no_cancel pm i hs] at h
    simp only [Bool.false_eq_true, if_false] at h
    have hs' : ∀ j, (({ pm with
        polls := pm.polls + 1
        current_step := i
        callback_calls := pm.callback_calls ++ [i] } : ProgressManager)).cancel_schedule j
        = false := hs
    split at h
    · simp at h
    · split at h
      · rename_i d
        split at h
        · have := ih _ _ _ _ _ hs' _ _ h
          rw [this]
          simp [List.range'_succ, List.length_cons]
        · have := ih _ _ _ _ _ hs' _ _ h
          rw [this]
          simp [List.range'_succ, List.length_cons]
      · have := ih _ _ _ _ _ hs' _ _ h
        rw [this]
        simp [List.range'_succ, List.length_cons]

/-- Counterexample to claim C4 as stated: a full save over two frames fires
the external callback three times, with arguments 0, 1 (the 0-based index
of each examined frame) and 2 (the final completion call) — not once per
frame with the 1-based count, which would be `[1, 2]`. -/
theorem c4_counterexample :
    save_gif_from_frames unitOps [(), ()] sampleSettings (some "out.gif") (pm_start 2)
      = (some "out.gif", [0, 1, 2]) ∧ ([0, 1, 2] : List ℕ) ≠ [1, 2] :=
  ⟨rfl, by decide⟩

/-- Claim C4 (amended): during a save over n frames with no cancellation,
each frame examined (kept or skipped) triggers exactly one invocation of
the external progress callback, whose argument is the frame's 0-based
index (the count of frames fully processed before it); one additional
final invocation then receives the total frame count n. -/
theorem c4_progress_callback_amended (Img PImg : Type) (ops : PipelineOps Img PImg)
    (frames : List Img) (settings : GifSettings) (pm0 : ProgressManager)
    (hsched : ∀ j, pm0.cancel_schedule j = false) (hcb : pm0.callback_calls = [])
    (imgs : List PImg) (pm' : ProgressManager)
    (h : process_frames ops frames settings pm0 = .ok (some imgs, pm')) :
    pm'.callback_calls = List.range frames.length ++ [frames.length] := by
  unfold process_frames at h
  have := process_loop_callbacks ops settings frames 0 0 _ [] pm0 hsched imgs pm' h
  rw [this, hcb, List.nil_append, ← List.range_eq_range', List.range_succ]

/-- Witness for C4 (amended): a one-frame save fires the callback with 0
and then with the total count 1. -/
theorem c4_progress_callback_amended_witness :
    (⟨1, fun _ => false, 2, 1, [0, 1]⟩ : ProgressManager).callback_calls
      = List.range 1 ++ [1] :=
  c4_progress_callback_amended Unit Unit unitOps [()] sampleSettings (pm_start 1)
    (fun _ => rfl) rfl [()] ⟨1, fun _ => false, 2, 1, [0, 1]⟩ rfl

/-- Claim C10: for every non-empty input, a frame-processing run that
completes without cancellation and without a per-frame exception hands the
encoder a non-empty list (the similarity detector always keeps the first
frame), so the encoder's `"No images to save"` branch is unreachable on
that path. -/
theorem c10_first_frame_kept (Img PImg : Type) (ops : PipelineOps Img PImg)
    (frames : List Img) (settings : GifSettings) (pm0 : ProgressManager)
    (hne : frames ≠ []) (imgs : List PImg) (pm' : ProgressManager)
    (h : process_frames ops frames settings pm0 = .ok (some imgs, pm')) :
    imgs ≠ [] ∧ ∀ (s2 : GifSettings) (pm2 : ProgressManager),
      save_gif_file imgs s2 pm2 ≠ .error "No images to save" := by
  have hne' : imgs ≠ [] := by
    match frames, hne with
    | f :: rest, _ =>
      unfold process_frames at h
      simp only [process_loop] at h
      split at h
      · simp at h
      · split at h
        · simp at h
        · split at h
          · rename_i d hd
            split at h
            · rename_i hsim
              split at hd
              · rename_i henable
                simp only [Option.some.injEq] at hd
                rw [← hd] at hsim
                simp [is_similar_to_previous, DetectorState.init] at hsim
              · simp at hd
            · obtain ⟨t, ht⟩ := process_loop_acc_prefix ops settings _ _ _ _ _ _ _ _ h
              simp [ht]
          · obtain ⟨t, ht⟩ := process_loop_acc_prefix ops settings _ _ _ _ _ _ _ _ h
            simp [ht]
  refine ⟨hne', fun s2 pm2 => ?_⟩
  have hempty : imgs.isEmpty = false := by
    match imgs, hne' with
    | x :: _, _ => rfl
  unfold save_gif_file
  rw [hempty]
  simp only [Bool.false_eq_true, if_false]
  split <;> simp

/-- Witness for C10: a successful one-frame run keeps the frame and the
encoder's empty-input error cannot fire on its output. -/
theorem c10_first_frame_kept_witness :
    ([()] : List Unit) ≠ [] ∧ ∀ (s2 : GifSettings) (pm2 : ProgressManager),
      save_gif_file ([()] : List Unit) s2 pm2 ≠ .error "No images to save" :=
  c10_first_frame_kept Unit Unit unitOps [()] sampleSettings (pm_start 1) (by simp)
    [()] ⟨1, fun _ => false, 2, 1, [0, 1]⟩ rfl

/-- Counterexample to claim C1 as stated: a save operation in which zero
frames survive processing (here, an empty frame list reaching
`_perform_save`) returns the silent `None` outcome: no encoding error is
raised or reported, the encoder is never invoked, and no file is written —
the claimed explicit "no frames to encode" error does not occur. -/
theorem c1_counterexample :
    (perform_save unitOps ([] : List Unit) sampleSettings "out.gif" (pm_start 0)).outcome
      = .ok none ∧
    (perform_save unitOps ([] : List Unit) sampleSettings "out.gif" (pm_start 0)).encoder_invoked
      = false ∧
    (perform_save unitOps ([] : List Unit) sampleSettings "out.gif" (pm_start 0)).file_written
      = false :=
  ⟨rfl, rfl, rfl⟩

/-- Claim C1 (amended): when zero frames survive processing, no file is
written — but not through a reported encoding error: `_perform_save`
short-circuits an empty processed list to the silent `None` outcome
without ever invoking the encoder, while the encoder itself
(`_save_gif_file`) would raise the explicit `"No images to save"` error
(and write nothing) if it were handed an empty list. -/
theorem c1_zero_survivors_amended :
    (∀ (PImg : Type) (settings : GifSettings) (pm : ProgressManager),
      save_gif_file ([] : List PImg) settings pm = .error "No images to save") ∧
    (∀ (Img PImg : Type) (ops : PipelineOps Img PImg) (frames : List Img)
      (settings : GifSettings) (filename : String) (pm0 pm' : ProgressManager),
      process_frames ops frames settings pm0 = .ok (some [], pm') →
      perform_save ops frames settings filename pm0 = ⟨.ok none, false, false, pm'⟩) := by
  refine ⟨fun PImg settings pm => rfl,
    fun Img PImg ops frames settings filename pm0 pm' h => ?_⟩
  unfold perform_save
  rw [h]
  simp

/-- Witness for C1 (amended): the empty-input run ends in the silent
`None` outcome with the encoder never invoked. -/
theorem c1_zero_survivors_amended_witness :
    perform_save unitOps ([] : List Unit) sampleSettings "out.gif" (pm_start 0)
      = ⟨.ok none, false, false, ⟨0, fun _ => false, 1, 0, [0]⟩⟩ :=
  c1_zero_survivors_amended.2 Unit Unit unitOps [] sampleSettings "out.gif" (pm_start 0)
    ⟨0, fun _ => false, 1, 0, [0]⟩ rfl
